import Mathlib
set_option maxRecDepth 100000

/-!
Shallow embedding of `fetch_areena.py` from the yle-guide-scraper repository,
and proofs of the specification claims about it.

Modelling conventions:
* Python dict/JSON values are embedded as Lean structures whose optional
  fields are `Option`-typed; `dict.get(k, default)` becomes `Option.getD`.
* Python's `str.lower` / `str.upper` / `str.title` are modelled for the
  ASCII range (the only range the program's service identifiers use).
* HTTP traffic is abstracted by response oracles (`String → ...` functions
  from URLs to outcomes); the number of network calls a code path performs
  is returned explicitly where a claim talks about call counts.
* The filesystem is a function from paths (component lists) to the YAML
  documents stored there; `yaml.dump`/`yaml.load` round-trip is the identity
  at this level of abstraction.
* The unbounded `while True` loop of `fetch_multiple_days` is embedded with
  an explicit fuel parameter; theorems quantify over sufficient fuel.
-/

namespace YleGuide

/-! ## Characters, digits and strings -/

/-- Decimal digit character for a value below ten. -/
def digitChar (n : Nat) : Char :=
  match n with
  | 0 => '0' | 1 => '1' | 2 => '2' | 3 => '3' | 4 => '4'
  | 5 => '5' | 6 => '6' | 7 => '7' | 8 => '8' | 9 => '9'
  | _ => '0'

/-- Uppercase hexadecimal digit character, as produced by Python percent-encoding. -/
def hexDigit (n : Nat) : Char :=
  match n with
  | 0 => '0' | 1 => '1' | 2 => '2' | 3 => '3' | 4 => '4'
  | 5 => '5' | 6 => '6' | 7 => '7' | 8 => '8' | 9 => '9'
  | 10 => 'A' | 11 => 'B' | 12 => 'C' | 13 => 'D' | 14 => 'E' | 15 => 'F'
  | _ => '0'

/-- Decimal digits of a natural number, most significant first (fuel-indexed
so that closed terms reduce in the kernel; the fuel `n + 1` always suffices). -/
def natDigitsGo (fuel : Nat) (n : Nat) (acc : List Char) : List Char :=
  match fuel with
  | 0 => acc
  | fuel + 1 =>
    if n < 10 then digitChar n :: acc
    else natDigitsGo fuel (n / 10) (digitChar (n % 10) :: acc)

/-- Decimal representation of a natural number, modelling Python `str(n)`. -/
def natToString (n : Nat) : String := ⟨natDigitsGo (n + 1) n []⟩

/-- Python `f"{n:02d}"`. -/
def pad2 (n : Nat) : String := (if n < 10 then "0" else "") ++ natToString n

/-- Python `f"{n:04d}"`. -/
def pad4 (n : Nat) : String :=
  (if n < 10 then "000" else if n < 100 then "00" else if n < 1000 then "0" else "")
    ++ natToString n

/-- ASCII lowercase conversion of one character, modelling Python `str.lower`
on the ASCII range. -/
def asciiLower (c : Char) : Char :=
  match c with
  | 'A' => 'a' | 'B' => 'b' | 'C' => 'c' | 'D' => 'd' | 'E' => 'e' | 'F' => 'f'
  | 'G' => 'g' | 'H' => 'h' | 'I' => 'i' | 'J' => 'j' | 'K' => 'k' | 'L' => 'l'
  | 'M' => 'm' | 'N' => 'n' | 'O' => 'o' | 'P' => 'p' | 'Q' => 'q' | 'R' => 'r'
  | 'S' => 's' | 'T' => 't' | 'U' => 'u' | 'V' => 'v' | 'W' => 'w' | 'X' => 'x'
  | 'Y' => 'y' | 'Z' => 'z'
  | c => c

/-- ASCII uppercase conversion of one character, modelling Python `str.upper`
on the ASCII range. -/
def asciiUpper (c : Char) : Char :=
  match c with
  | 'a' => 'A' | 'b' => 'B' | 'c' => 'C' | 'd' => 'D' | 'e' => 'E' | 'f' => 'F'
  | 'g' => 'G' | 'h' => 'H' | 'i' => 'I' | 'j' => 'J' | 'k' => 'K' | 'l' => 'L'
  | 'm' => 'M' | 'n' => 'N' | 'o' => 'O' | 'p' => 'P' | 'q' => 'Q' | 'r' => 'R'
  | 's' => 'S' | 't' => 'T' | 'u' => 'U' | 'v' => 'V' | 'w' => 'W' | 'x' => 'X'
  | 'y' => 'Y' | 'z' => 'Z'
  | c => c

/-- ASCII letter test, modelling Python's cased-character test on ASCII. -/
def isAsciiAlpha (c : Char) : Bool :=
  ('a' ≤ c && c ≤ 'z') || ('A' ≤ c && c ≤ 'Z')

/-- Lowercase a whole string (Python `str.lower`, ASCII model). -/
def asciiLowerStr (s : String) : String := ⟨s.data.map asciiLower⟩

/-- Python `str.replace(a, b)` for a single-character pattern. -/
def replaceChar (a b : Char) (s : String) : String :=
  ⟨s.data.map fun c => if c = a then b else c⟩

/-- Python `str.title` for ASCII text: a letter is uppercased when the
preceding character is not a letter, and lowercased otherwise.  The boolean
argument records whether the previous character was a letter. -/
def pyTitleGo (prevAlpha : Bool) : List Char → List Char
  | [] => []
  | c :: rest =>
    (if prevAlpha then asciiLower c else asciiUpper c) :: pyTitleGo (isAsciiAlpha c) rest

/-- Python `str.title` (ASCII model). -/
def pyTitle (s : String) : String := ⟨pyTitleGo false s.data⟩

/-- Split a character list at every occurrence of a separator character
(`str.split(sep)` for a one-character separator: n separators yield n+1
parts, and the empty string yields one empty part). -/
def splitOnChar (sep : Char) : List Char → List (List Char)
  | [] => [[]]
  | c :: rest =>
    match splitOnChar sep rest with
    | [] => [[c]]
    | h :: t => if c = sep then [] :: h :: t else (c :: h) :: t

/-- Python `s.split(sep)` for a one-character separator. -/
def pySplit (s : String) (sep : Char) : List String :=
  (splitOnChar sep s.data).map fun l => ⟨l⟩

/-- Join strings with a separator (`sep.join(parts)`). -/
def joinWith (sep : String) (parts : List String) : String :=
  ⟨(List.intersperse sep.data (parts.map String.data)).flatten⟩

/-! ## Percent-encoding (`urllib.parse.urlencode` / `quote_plus`) -/

/-- Characters `urllib.parse.quote_plus` leaves unencoded: ASCII alphanumerics
and the always-safe punctuation. -/
def isSafeChar (c : Char) : Bool :=
  c.isAlphanum || c = '_' || c = '.' || c = '-' || c = '~'

/-- UTF-8 bytes of a character. -/
def utf8Bytes (c : Char) : List Nat :=
  let n := c.toNat
  if n < 128 then [n]
  else if n < 2048 then [192 + n / 64, 128 + n % 64]
  else if n < 65536 then [224 + n / 4096, 128 + n / 64 % 64, 128 + n % 64]
  else [240 + n / 262144, 128 + n / 4096 % 64, 128 + n / 64 % 64, 128 + n % 64]

/-- Percent-encoding of one byte. -/
def percentByte (b : Nat) : List Char := ['%', hexDigit (b / 16), hexDigit (b % 16)]

/-- `quote_plus` applied to one character: space becomes a plus sign, safe
characters pass through, anything else is percent-encoded bytewise. -/
def quoteChar (c : Char) : List Char :=
  if c = ' ' then ['+']
  else if isSafeChar c then [c]
  else ((utf8Bytes c).map percentByte).flatten

/-- `urllib.parse.quote_plus`. -/
def quote_plus (s : String) : String := ⟨(s.data.map quoteChar).flatten⟩

/-- `urllib.parse.urlencode` on an ordered parameter list (Python preserves
dict insertion order). -/
def urlencode (params : List (String × String)) : String :=
  joinWith "&" (params.map fun p => quote_plus p.1 ++ "=" ++ quote_plus p.2)

/-! ## URL query parsing (`urlparse` / `parse_qs`) -/

/-- Value of a hexadecimal digit character (codepoints 48-57 are the
decimal digits, 97-102 and 65-70 the lower- and uppercase hex letters). -/
def hexVal (c : Char) : Option Nat :=
  let n := c.toNat
  if 48 ≤ n && n ≤ 57 then some (n - 48)
  else if 97 ≤ n && n ≤ 102 then some (n - 87)
  else if 65 ≤ n && n ≤ 70 then some (n - 55)
  else none

/-- `urllib.parse.unquote_plus`, single-byte model: plus signs become spaces
and `%XX` sequences decode to the character with that code. -/
def unquotePlusGo : List Char → List Char
  | [] => []
  | '+' :: rest => ' ' :: unquotePlusGo rest
  | '%' :: h1 :: h2 :: rest =>
    match hexVal h1, hexVal h2 with
    | some v1, some v2 => Char.ofNat (16 * v1 + v2) :: unquotePlusGo rest
    | _, _ => '%' :: unquotePlusGo (h1 :: h2 :: rest)
  | c :: rest => c :: unquotePlusGo rest

/-- `urllib.parse.unquote_plus`. -/
def unquote_plus (s : String) : String := ⟨unquotePlusGo s.data⟩

/-- The `query` component of `urllib.parse.urlparse`: the fragment is cut at
the first hash sign, then the query is everything after the first question
mark of what remains. -/
def urlparseQuery (u : String) : String :=
  let beforeFragment := (pySplit u '#').headD ""
  match pySplit beforeFragment '?' with
  | [] => ""
  | [_] => ""
  | _ :: rest => joinWith "?" rest

/-- `urllib.parse.parse_qsl` with default options: pairs without an equals
sign and pairs with a blank value are dropped, names and values are
unquoted. -/
def parse_qsl (qs : String) : List (String × String) :=
  (pySplit qs '&').filterMap fun pair =>
    match pySplit pair '=' with
    | [] => none
    | [_] => none
    | name :: vals =>
      let value := joinWith "=" vals
      if value = "" then none
      else some (unquote_plus name, unquote_plus value)

/-- First value listed for a key by `parse_qs` (Python's dict keeps values in
encounter order, so `query[k][0]` is the first pair with that name). -/
def parseQsFirst (qs : String) (key : String) : Option String :=
  ((parse_qsl qs).find? fun p => p.1 = key).map Prod.snd

/-! ## Dates and times (`datetime` model) -/

/-- Calendar date, modelling `datetime.date`. -/
structure Date where
  year : Nat
  month : Nat
  day : Nat
  deriving DecidableEq, Repr

/-- Python `date.isoformat()`. -/
def Date.isoformat (d : Date) : String :=
  pad4 d.year ++ "-" ++ pad2 d.month ++ "-" ++ pad2 d.day

/-- Gregorian leap-year test. -/
def isLeapYear (y : Nat) : Bool :=
  (y % 4 = 0 && y % 100 ≠ 0) || y % 400 = 0

/-- Number of days in a month. -/
def daysInMonth (y m : Nat) : Nat :=
  if m = 2 then (if isLeapYear y then 29 else 28)
  else if m = 4 || m = 6 || m = 9 || m = 11 then 30
  else 31

/-- The following calendar day (`timedelta(days=1)`). -/
def nextDay (d : Date) : Date :=
  if d.day < daysInMonth d.year d.month then ⟨d.year, d.month, d.day + 1⟩
  else if d.month < 12 then ⟨d.year, d.month + 1, 1⟩
  else ⟨d.year + 1, 1, 1⟩

/-- Advance a date by a number of days. -/
def addDays (d : Date) (n : Nat) : Date := nextDay^[n] d

/-- Timezone-aware timestamp, modelling `datetime.datetime`; `tz` is the UTC
offset in minutes when the timestamp is aware. -/
structure DateTime where
  year : Nat
  month : Nat
  day : Nat
  hour : Nat
  minute : Nat
  second : Nat
  tz : Option Int
  deriving DecidableEq, Repr

/-- Two decimal digit characters to a number. -/
def twoDigits (a b : Char) : Option Nat :=
  match hexVal a, hexVal b with
  | some x, some y => if x < 10 && y < 10 then some (10 * x + y) else none
  | _, _ => none

/-- Parse the trailing UTC-offset part of an ISO-8601 timestamp
(empty, or a sign followed by `HH:MM`). -/
def parseTzPart : List Char → Option (Option Int)
  | [] => some none
  | sign :: h1 :: h2 :: ':' :: m1 :: m2 :: [] =>
    match twoDigits h1 h2, twoDigits m1 m2 with
    | some hh, some mm =>
      if hh ≤ 23 && mm ≤ 59 then
        if sign = '+' then some (some ((hh : Int) * 60 + mm))
        else if sign = '-' then some (some (-((hh : Int) * 60 + mm)))
        else none
      else none
    | _, _ => none
  | _ => none

/-- `datetime.fromisoformat`, modelling the canonical
`YYYY-MM-DDTHH:MM:SS[±HH:MM]` shape the program's data uses; anything else
fails to parse (Python raises `ValueError`, embedded as `none`). -/
def fromisoformat (s : String) : Option DateTime :=
  match s.data with
  | y1 :: y2 :: y3 :: y4 :: '-' :: mo1 :: mo2 :: '-' :: d1 :: d2 :: 'T'
      :: h1 :: h2 :: ':' :: mi1 :: mi2 :: ':' :: s1 :: s2 :: rest =>
    match twoDigits y1 y2, twoDigits y3 y4, twoDigits mo1 mo2, twoDigits d1 d2,
        twoDigits h1 h2, twoDigits mi1 mi2, twoDigits s1 s2, parseTzPart rest with
    | some yh, some yl, some mo, some dd, some hh, some mi, some ss, some tz =>
      let yy := 100 * yh + yl
      if 1 ≤ mo && mo ≤ 12 && 1 ≤ dd && dd ≤ daysInMonth yy mo
          && hh ≤ 23 && mi ≤ 59 && ss ≤ 59 then
        some ⟨yy, mo, dd, hh, mi, ss, tz⟩
      else none
    | _, _, _, _, _, _, _, _ => none
  | _ => none

/-- Python `datetime.isoformat()` for a whole-second timestamp. -/
def DateTime.isoformat (t : DateTime) : String :=
  pad4 t.year ++ "-" ++ pad2 t.month ++ "-" ++ pad2 t.day ++ "T"
    ++ pad2 t.hour ++ ":" ++ pad2 t.minute ++ ":" ++ pad2 t.second
    ++ match t.tz with
       | none => ""
       | some off =>
         (if off < 0 then "-" else "+") ++ pad2 (off.natAbs / 60) ++ ":" ++ pad2 (off.natAbs % 60)

/-- Python `t + timedelta(seconds=s)`: seconds are added with carry into the
clock fields and any whole-day overflow advances the calendar date; the
timezone is kept unchanged. -/
def DateTime.addSeconds (t : DateTime) (s : Nat) : DateTime :=
  let total := t.hour * 3600 + t.minute * 60 + t.second + s
  let rem := total % 86400
  let nd := addDays ⟨t.year, t.month, t.day⟩ (total / 86400)
  ⟨nd.year, nd.month, nd.day, rem / 3600, rem % 3600 / 60, rem % 60, t.tz⟩

/-! ## The `__NEXT_DATA__` configuration blob -/

/-- A `content["source"]` object. -/
structure Source where
  uri : Option String
  deriving DecidableEq, Repr

/-- A `tab["content"]` entry. -/
structure Content where
  source : Option Source
  deriving DecidableEq, Repr

/-- A `view["tabs"]` entry. -/
structure Tab where
  content : List Content
  deriving DecidableEq, Repr

/-- The `runtimeConfig` object of the blob. -/
structure RuntimeConfig where
  appIdFrontend : Option String
  appKeyFrontend : Option String
  deriving DecidableEq, Repr

/-- The `__NEXT_DATA__` configuration blob, restricted to the fields
`build_api_url` reads; `tabs` stands for `props.pageProps.view.tabs` (each
level read with a `{}` default). -/
structure NextData where
  locale : Option String
  runtimeConfig : RuntimeConfig
  tabs : List Tab
  deriving DecidableEq, Repr

/-- The inner loop of the first-URI scan: the first content entry of a tab
that has a `source` with a `uri`. -/
def findUriInTab (t : Tab) : Option String :=
  t.content.findSome? fun c => c.source.bind (·.uri)

/-- The nested first-URI scan of `build_api_url`: tabs are scanned until
`first_uri` is truthy (a non-empty string); a falsy value found in an earlier
tab is kept unless a later tab overwrites it. -/
def firstUri (tabs : List Tab) : Option String :=
  tabs.foldl
    (fun acc tab =>
      match acc with
      | some s => if s ≠ "" then acc else (findUriInTab tab).getD s |> some
      | none => findUriInTab tab)
    none

/-- The `v` parameter of `build_api_url`: default `"10"`, overridden by the
`v` query parameter of the first discovered content URI when that URI is
truthy and carries one. -/
def extractV (nd : NextData) : String :=
  match firstUri nd.tabs with
  | some first_uri =>
    if first_uri ≠ "" then (parseQsFirst (urlparseQuery first_uri) "v").getD "10" else "10"
  | none => "10"

/-- `build_api_url` from `fetch_areena.py`: query parameters derived from the
blob plus the date-bearing path segment and `yleReferer`. -/
def build_api_url (next_data : NextData) (date : Date) : String :=
  let v := extractV next_data
  let date_str := date.isoformat
  let channel := "yle-radio-1"
  let params : List (String × String) :=
    [("language", next_data.locale.getD "fi"),
     ("v", v),
     ("client", "yle-areena-web"),
     ("app_id", next_data.runtimeConfig.appIdFrontend.getD "areena-web-items"),
     ("app_key", next_data.runtimeConfig.appKeyFrontend.getD "wlTs5D9OjIdeS9krPzRQR4I1PYVzoazN"),
     ("yleReferer", "radio.guide." ++ date_str ++ ".radio_opas." ++ channel ++ ".untitled_list")]
  let base_url := "https://areena.api.yle.fi/v1/ui/schedules/" ++ channel ++ "/" ++ date_str ++ ".json"
  base_url ++ "?" ++ urlencode params

/-! ## Schedule data and `fetch_schedule` -/

/-- A `label["pointer"]` object. -/
structure Pointer where
  uri : Option String
  deriving DecidableEq, Repr

/-- A typed label attached to a schedule item. -/
structure Label where
  type : Option String
  raw : Option String
  pointer : Option Pointer
  deriving DecidableEq, Repr

/-- A raw schedule item. -/
structure Item where
  title : Option String
  labels : List Label
  description : Option String
  deriving DecidableEq, Repr

/-- The parsed body of a schedule response, restricted to the fields the
program reads: the `data` item list (absent embedded as empty) and the
`meta.analytics.context.comscore.yle_referer` string. -/
structure ScheduleData where
  data : List Item
  yleReferer : Option String
  deriving DecidableEq, Repr

/-- Marker for the fatal transport failure the specification's taxonomy
names. -/
inductive TransportError
  | mk
  deriving DecidableEq, Repr

/-- Outcome of the HTTP GET inside `fetch_schedule`: the request raised
(connection failure, timeout, or non-2xx via `raise_for_status`), the body
was not valid JSON, or a parsed body was obtained. -/
inductive HttpOutcome
  | requestError
  | badJson
  | ok (body : ScheduleData)
  deriving DecidableEq, Repr

instance instDecEqExceptFetch : DecidableEq (Except TransportError (Option ScheduleData)) :=
  fun x y =>
    match x, y with
    | .error a, .error b => decidable_of_iff (a = b) (by simp)
    | .ok a, .ok b => decidable_of_iff (a = b) (by simp)
    | .error _, .ok _ => isFalse Except.noConfusion
    | .ok _, .error _ => isFalse Except.noConfusion

/-- `fetch_schedule` from `fetch_areena.py`.  The result type records
whether the call raises (`Except.error`) or returns (`Except.ok`): the
Python function catches `RequestException` and `JSONDecodeError` and returns
`None`, and returns `None` as well when the body's `data` collection is
empty or absent. -/
def fetch_schedule (outcome : HttpOutcome) : Except TransportError (Option ScheduleData) :=
  match outcome with
  | .requestError => .ok none
  | .badJson => .ok none
  | .ok body => if body.data.isEmpty then .ok none else .ok (some body)

/-! ## The series-title cache (`AreenaCache.get_series_title`) -/

/-- The `view` object of a series detail response. -/
structure SeriesView where
  title : Option String
  deriving DecidableEq, Repr

/-- The `pageProps` object of a series detail response. -/
structure SeriesPageProps where
  view : Option SeriesView
  deriving DecidableEq, Repr

/-- Parsed body of a series detail response. -/
structure SeriesDoc where
  pageProps : Option SeriesPageProps
  deriving DecidableEq, Repr

/-- Outcome of the HTTP GET inside `get_series_title`: a transport or parse
failure (all caught and logged), or a parsed body. -/
inductive SeriesOutcome
  | failure
  | ok (body : SeriesDoc)
  deriving DecidableEq, Repr

/-- The persistent key-value store backing `AreenaCache` (`diskcache.Cache`);
entry expiry is not modelled, so stored entries are the unexpired ones. -/
def CacheState := List (String × String)

instance : DecidableEq CacheState :=
  inferInstanceAs (DecidableEq (List (String × String)))

/-- `Cache.get`. -/
def cacheGet (st : CacheState) (key : String) : Option String :=
  (st.find? fun e => e.1 = key).map Prod.snd

/-- `Cache.set` (the newest binding wins). -/
def cacheSet (st : CacheState) (key value : String) : CacheState :=
  (key, value) :: st

/-- The series detail endpoint URL built by `get_series_title`. -/
def seriesUrl (build_id series_id : String) : String :=
  "https://areena.yle.fi/_next/data/" ++ build_id ++ "/fi/podcastit/" ++ series_id ++ ".json"

/-- `AreenaCache.get_series_title` from `fetch_areena.py`, with the HTTP
layer abstracted by `resp` (URL to outcome).  Returns the title (if any),
the updated cache store, and the number of network calls performed. -/
def get_series_title (resp : String → SeriesOutcome) (st : CacheState)
    (series_id : String) (build_id : Option String) :
    Option String × CacheState × Nat :=
  match build_id with
  | none => (none, st, 0)
  | some bid =>
    if bid = "" then (none, st, 0)
    else
      let cache_key := "series_title:" ++ series_id ++ ":" ++ bid
      match cacheGet st cache_key with
      | some cached_title => (some cached_title, st, 0)
      | none =>
        match resp (seriesUrl bid series_id) with
        | .failure => (none, st, 1)
        | .ok body =>
          match ((body.pageProps.getD ⟨none⟩).view.getD ⟨none⟩).title with
          | some title =>
            if title ≠ "" then (some title, cacheSet st cache_key title, 1)
            else (none, st, 1)
          | none => (none, st, 1)

/-! ## Extraction helpers -/

/-- A nonempty all-digit character list read as a number. -/
def parseDigits (ds : List Char) : Option Nat :=
  if ds ≠ [] && ds.all (·.isDigit) then
    some (ds.foldl (fun acc c => 10 * acc + (c.toNat - '0'.toNat)) 0)
  else none

/-- Python `int(str)`: surrounding whitespace is ignored, an optional sign
precedes one or more digits; anything else raises `ValueError` (embedded as
`none`). -/
def parsePyInt (s : String) : Option Int :=
  let core := ((s.data.dropWhile (·.isWhitespace)).reverse.dropWhile (·.isWhitespace)).reverse
  match core with
  | '+' :: ds => (parseDigits ds).map fun n => (n : Int)
  | '-' :: ds => (parseDigits ds).map fun n => -(n : Int)
  | ds => (parseDigits ds).map fun n => (n : Int)

/-- One anchored attempt of the regex `yleareena://items/(\d+-\d+)`: the
literal part followed by the captured digits-dash-digits group. -/
def matchSeriesAt (l : List Char) : Option String :=
  let lit := "yleareena://items/".data
  if lit.isPrefixOf l then
    let rest := l.drop lit.length
    let d1 := rest.takeWhile (·.isDigit)
    if d1.isEmpty then none
    else
      match rest.drop d1.length with
      | '-' :: rest2 =>
        let d2 := rest2.takeWhile (·.isDigit)
        if d2.isEmpty then none else some ⟨d1 ++ '-' :: d2⟩
      | _ => none
  else none

/-- `_extract_service_info` from `fetch_areena.py`.  Python indexes
`split(".")[-2]`, which raises `IndexError` when the referer has fewer than
two dot-separated parts; that failure is embedded as `none`. -/
def _extract_service_info (schedule_data : ScheduleData) : Option (String × String) :=
  let parts := pySplit (schedule_data.yleReferer.getD "") '.'
  if h : 2 ≤ parts.length then
    let service_id := replaceChar '_' '-' (parts.get ⟨parts.length - 2, by omega⟩)
    let service_name :=
      if service_id = "yle-radio-1" then "Yle Radio 1"
      else pyTitle (replaceChar '-' ' ' service_id)
    some (service_id, service_name)
  else none

/-- The start-time scan of `_extract_time_info`: the first
`broadcastStartDate` label whose raw value parses is used; a label whose raw
value fails to parse is passed over (`except ValueError: pass`). -/
def extractStartTime (labels : List Label) : Option DateTime :=
  labels.findSome? fun label =>
    if label.type.getD "" = "broadcastStartDate" then fromisoformat (label.raw.getD "")
    else none

/-- The duration scan of `_extract_time_info`: the scan stops at the first
`duration` label whose raw value has the `PT…S` shape; its digits are parsed
as an integer, with a parse failure suppressed to the default 0. -/
def extractDurationSeconds (labels : List Label) : Int :=
  (labels.findSome? fun label =>
    if label.type.getD "" = "duration" then
      let duration_raw := label.raw.getD ""
      if "PT".data.isPrefixOf duration_raw.data && "S".data.isSuffixOf duration_raw.data then
        some ((parsePyInt ⟨duration_raw.data.drop 2 |>.dropLast⟩).getD 0)
      else none
    else none).getD 0

/-- `_extract_time_info` from `fetch_areena.py`. -/
def _extract_time_info (item : Item) : Option DateTime × Option DateTime :=
  let start_time := extractStartTime item.labels
  let duration_seconds := extractDurationSeconds item.labels
  let end_time :=
    match start_time with
    | some st => if duration_seconds > 0 then some (st.addSeconds duration_seconds.toNat) else none
    | none => none
  (start_time, end_time)

/-- The regex search `yleareena://items/(\d+-\d+)` of `_extract_series_info`:
at the first position where the literal followed by digits, a dash and more
digits matches, the captured group is returned. -/
def searchSeriesIdGo : List Char → Option String
  | [] => none
  | c :: rest =>
    match matchSeriesAt (c :: rest) with
    | some captured => some captured
    | none => searchSeriesIdGo rest

/-- `re.search` of the series-link pattern over a URI string. -/
def searchSeriesId (uri : String) : Option String :=
  searchSeriesIdGo uri.data

/-- `_extract_series_info` up to the cache lookup: the series id captured
from the first `seriesLink` label whose pointer URI matches the pattern. -/
def seriesIdOf (item : Item) : Option String :=
  item.labels.findSome? fun label =>
    if label.type.getD "" = "seriesLink" then
      searchSeriesId ((label.pointer.getD ⟨none⟩).uri.getD "")
    else none

/-- `_extract_series_info` from `fetch_areena.py` (the cache handle is the
explicit state, and the HTTP layer is the `resp` oracle). -/
def _extract_series_info (resp : String → SeriesOutcome) (item : Item)
    (build_id : Option String) (st : CacheState) : Option String × CacheState :=
  match seriesIdOf item with
  | some series_id =>
    let r := get_series_title resp st series_id build_id
    (r.1, r.2.1)
  | none => (none, st)

/-! ## Output documents, `convert_to_yaml` and `write_yaml` -/

/-- A normalized programme record. -/
structure Programme where
  title : String
  start_time : String
  end_time : Option String
  description : Option String
  series : Option String
  deriving DecidableEq, Repr

/-- One service's programme list. -/
structure ServiceData where
  programmes : List Programme
  deriving DecidableEq, Repr

/-- The `metadata` section of an output document. -/
structure Metadata where
  generated_at : String
  git : List (String × String)
  data_hash : Option String
  deriving DecidableEq, Repr

/-- A whole output document: metadata plus service name to programme list. -/
structure YamlDoc where
  metadata : Metadata
  data : List (String × ServiceData)
  deriving DecidableEq, Repr

/-- Python truthiness of an optional string. -/
def truthyStr : Option String → Bool
  | some s => s ≠ ""
  | none => false

/-- The loop body of `convert_to_yaml` for one schedule item: `none` when the
item is skipped (missing or empty title, or no parseable start date).  The
series-title cache is consulted only after those checks pass, so a skipped
item leaves the cache store untouched. -/
def convertItem (resp : String → SeriesOutcome) (build_id : Option String)
    (st : CacheState) (item : Item) : Option Programme × CacheState :=
  if item.title.getD "" = "" then (none, st)
  else
    let time_info := _extract_time_info item
    match time_info.1 with
    | none => (none, st)
    | some start_time =>
      let series := _extract_series_info resp item build_id st
      let programme : Programme :=
        { title := item.title.getD ""
          start_time := start_time.isoformat
          end_time := time_info.2.map DateTime.isoformat
          description :=
            match item.description with
            | some d => if d ≠ "" then some d else none
            | none => none
          series :=
            match series.1 with
            | some t => if t ≠ "" then some t else none
            | none => none }
      (some programme, series.2)

/-- `convert_to_yaml` from `fetch_areena.py`.  `generated_at` and `gitInfo`
stand for the ambient `datetime.now()` and `get_git_info()` values; the
result is `none` when `_extract_service_info` raises.  Returns the document
and the updated cache store. -/
def convert_to_yaml (resp : String → SeriesOutcome) (schedule_data : ScheduleData)
    (build_id : Option String) (data_hash : Option String) (st : CacheState)
    (generated_at : String) (gitInfo : List (String × String)) :
    Option (YamlDoc × CacheState) :=
  match _extract_service_info schedule_data with
  | none => none
  | some service_info =>
    let step : List Programme × CacheState → Item → List Programme × CacheState :=
      fun acc item =>
        let r := convertItem resp build_id acc.2 item
        match r.1 with
        | some programme => (acc.1 ++ [programme], r.2)
        | none => (acc.1, r.2)
    let result := schedule_data.data.foldl step ([], st)
    some ({ metadata := ⟨generated_at, gitInfo, data_hash⟩
            data := [(service_info.2, ⟨result.1⟩)] },
          result.2)

/-- The output file tree: YAML documents indexed by path component lists. -/
def FS := List String → Option YamlDoc

/-- Store a document at a path (an existing file is overwritten). -/
def fsSet (fs : FS) (path : List String) (doc : YamlDoc) : FS :=
  fun p => if p = path then some doc else fs p

/-- The dated output path
`<directory>/<service_id>/<year>/<month:02d>/<day:02d>.yaml`. -/
def servicePath (directory service_id : String) (d : Date) : List String :=
  [directory, service_id, natToString d.year, pad2 d.month, pad2 d.day ++ ".yaml"]

/-- The writer's service-name-to-id conversion
(`service_name.lower().replace(" ", "-")`). -/
def serviceIdOfName (service_name : String) : String :=
  replaceChar ' ' '-' (asciiLowerStr service_name)

/-- `write_yaml` from `fetch_areena.py`, restricted to its filesystem effect:
in directory mode one file per service at the dated path, otherwise a single
output file, otherwise a dump to stdout (no file effect). -/
def write_yaml (yaml_data : YamlDoc) (output_file directory : Option String)
    (current_date : Date) (fs : FS) : FS :=
  if truthyStr directory then
    yaml_data.data.foldl
      (fun fs service =>
        let service_id := serviceIdOfName service.1
        fsSet fs (servicePath (directory.getD "") service_id current_date)
          ⟨yaml_data.metadata, [service]⟩)
      fs
  else if truthyStr output_file then
    fsSet fs [output_file.getD ""] yaml_data
  else fs

/-! ## The multi-day driver (`fetch_multiple_days`) -/

/-- The `AreenaData` dataclass. -/
structure AreenaData where
  next_data : NextData
  build_id : Option String
  data_hash : String

/-- The `FetchConfig` dataclass (the cache handle is threaded explicitly as
`CacheState`). -/
structure FetchConfig where
  areena_data : AreenaData
  output : Option String
  directory : Option String

/-- How a run of the driver loop ended: the normal no-data stop, an
uncaught exception, or exhaustion of the embedding's fuel. -/
inductive LoopEnd
  | stopped (d : Date)
  | crashed (d : Date)
  | fuelExhausted (d : Date)
  deriving Repr

/-- Result of a driver run: final file tree and cache store, the list of
processed days (`true` when the day was written, `false` when the hash
check skipped it), and how the loop ended. -/
structure RunResult where
  fs : FS
  cache : CacheState
  processed : List (Date × Bool)
  ending : LoopEnd

/-- The output path the driver's hash-skip check inspects: it is built from
the hardcoded service id `"yle-radio-1"`, not from the schedule data. -/
def checkedPath (directory : String) (d : Date) : List String :=
  servicePath directory "yle-radio-1" d

/-- The hash-skip condition of `fetch_multiple_days`: directory mode, the
checked output file exists, and its stored `metadata.data_hash` equals the
content hash of this run's configuration blob. -/
def hashSkip (config : FetchConfig) (fs : FS) (d : Date) : Bool :=
  truthyStr config.directory &&
    match fs (checkedPath (config.directory.getD "") d) with
    | some existing_data => existing_data.metadata.data_hash == some config.areena_data.data_hash
    | none => false

/-- `fetch_multiple_days` from `fetch_areena.py`.  `htresp` and `sresp` are
the HTTP oracles for the schedule and series endpoints, `generated_at` and
`gitInfo` the ambient clock and git values, and the `Nat` argument is the
fuel bounding the embedded `while True` loop. -/
def fetch_multiple_days (htresp : String → HttpOutcome) (sresp : String → SeriesOutcome)
    (config : FetchConfig) (generated_at : String) (gitInfo : List (String × String)) :
    Nat → FS → CacheState → Date → RunResult
  | 0, fs, cache, current_date => ⟨fs, cache, [], .fuelExhausted current_date⟩
  | fuel + 1, fs, cache, current_date =>
    let api_url := build_api_url config.areena_data.next_data current_date
    match fetch_schedule (htresp api_url) with
    | .error _ => ⟨fs, cache, [], .crashed current_date⟩
    | .ok none => ⟨fs, cache, [], .stopped current_date⟩
    | .ok (some schedule_data) =>
      if hashSkip config fs current_date then
        let r := fetch_multiple_days htresp sresp config generated_at gitInfo
          fuel fs cache (nextDay current_date)
        ⟨r.fs, r.cache, (current_date, false) :: r.processed, r.ending⟩
      else
        match convert_to_yaml sresp schedule_data config.areena_data.build_id
            (some config.areena_data.data_hash) cache generated_at gitInfo with
        | none => ⟨fs, cache, [], .crashed current_date⟩
        | some converted =>
          let fs' := write_yaml converted.1 config.output config.directory current_date fs
          let r := fetch_multiple_days htresp sresp config generated_at gitInfo
            fuel fs' converted.2 (nextDay current_date)
          ⟨r.fs, r.cache, (current_date, true) :: r.processed, r.ending⟩

/-! ## Fixtures from the repository's test file -/

/-- The first parametrized configuration blob of `test_build_api_url`. -/
def fixtureNextData : NextData :=
  { locale := some "fi"
    runtimeConfig := { appIdFrontend := some "test-app-id", appKeyFrontend := some "test-app-key" }
    tabs := [⟨[⟨some ⟨some "https://example.com?v=10"⟩⟩]⟩] }

/-- The expected URL of the first `test_build_api_url` case. -/
def fixtureExpectedUrl : String :=
  "https://areena.api.yle.fi/v1/ui/schedules/yle-radio-1/2024-01-01.json?language=fi&v=10&client=yle-areena-web&app_id=test-app-id&app_key=test-app-key&yleReferer=radio.guide.2024-01-01.radio_opas.yle-radio-1.untitled_list"

/-- The five date-independent query parameters of `build_api_url`, encoded;
a function of the configuration blob alone. -/
def blobQuery (nd : NextData) : String :=
  urlencode
    [("language", nd.locale.getD "fi"),
     ("v", extractV nd),
     ("client", "yle-areena-web"),
     ("app_id", nd.runtimeConfig.appIdFrontend.getD "areena-web-items"),
     ("app_key", nd.runtimeConfig.appKeyFrontend.getD "wlTs5D9OjIdeS9krPzRQR4I1PYVzoazN")]

/-! ## Helper lemmas: percent-encoding leaves safe text unchanged -/

lemma digitChar_safe (n : Nat) : isSafeChar (digitChar n) = true := by
  unfold digitChar; split <;> decide

lemma natDigitsGo_safe (fuel : Nat) : ∀ (n : Nat) (acc : List Char), acc.all isSafeChar →
    (natDigitsGo fuel n acc).all isSafeChar := by
  induction fuel with
  | zero => intro n acc h; unfold natDigitsGo; exact h
  | succ fuel ih =>
    intro n acc h
    unfold natDigitsGo
    split
    · simp [digitChar_safe, h]
    · exact ih _ _ (by simp [digitChar_safe, h])

lemma natToString_safe (n : Nat) : (natToString n).data.all isSafeChar :=
  natDigitsGo_safe _ _ _ rfl

lemma pad2_safe (n : Nat) : (pad2 n).data.all isSafeChar := by
  unfold pad2
  split
  · simp [natToString_safe, List.all_append]; decide
  · simp [natToString_safe, List.all_append]

lemma pad4_safe (n : Nat) : (pad4 n).data.all isSafeChar := by
  unfold pad4
  split
  · simp [natToString_safe, List.all_append]; decide
  · split
    · simp [natToString_safe, List.all_append]; decide
    · split
      · simp [natToString_safe, List.all_append]; decide
      · simp [natToString_safe, List.all_append]

lemma isoformat_safe (d : Date) : (Date.isoformat d).data.all isSafeChar := by
  unfold Date.isoformat
  simp [List.all_append, pad2_safe, pad4_safe]
  decide

lemma quoteChar_safe (c : Char) (h : isSafeChar c = true) : quoteChar c = [c] := by
  unfold quoteChar
  have hc : c ≠ ' ' := by rintro rfl; exact absurd h (by decide)
  simp [hc, h]

lemma quote_plus_data_eq (l : List Char) (h : l.all isSafeChar) :
    (l.map quoteChar).flatten = l := by
  induction l with
  | nil => rfl
  | cons c rest ih =>
    simp only [List.all_cons, Bool.and_eq_true] at h
    simp [quoteChar_safe c h.1, ih h.2]

lemma quote_plus_eq_self (s : String) (h : s.data.all isSafeChar) : quote_plus s = s := by
  cases s with
  | mk l => exact congrArg String.mk (quote_plus_data_eq l h)

lemma build_api_url_decomp (nd : NextData) (d : Date) :
    build_api_url nd d =
      "https://areena.api.yle.fi/v1/ui/schedules/" ++ "yle-radio-1" ++ "/" ++ d.isoformat
        ++ ".json" ++ "?" ++ blobQuery nd
        ++ "&" ++ "yleReferer" ++ "=" ++ "radio.guide." ++ d.isoformat
        ++ ".radio_opas." ++ "yle-radio-1" ++ ".untitled_list" := by
  have hsafe : ("radio.guide." ++ d.isoformat ++ ".radio_opas." ++ "yle-radio-1"
      ++ ".untitled_list").data.all isSafeChar = true := by
    simp [List.all_append, isoformat_safe]
    constructor <;> decide
  have hyr : quote_plus "yleReferer" = "yleReferer" := by decide
  unfold build_api_url blobQuery urlencode
  simp only [joinWith, List.map_cons, List.map_nil, List.intersperse]
  rw [quote_plus_eq_self _ hsafe, hyr]
  apply String.ext
  simp [String.data_append, List.append_assoc]

/-- The series-endpoint oracle of the missing-title case of
`test_get_series_title`: the mocked response body is
`{"pageProps": {"view": {}}}` (no `title`). -/
def seriesRespMissingTitle : String → SeriesOutcome := fun url =>
  if url = seriesUrl "def456" "1-7654321" then .ok ⟨some ⟨some ⟨none⟩⟩⟩ else .failure

/-- A series-endpoint oracle for runs that never resolve a series title. -/
def respNoSeries : String → SeriesOutcome := fun _ => .failure

/-- The schedule item of the specification's end-to-end scenario: title
`Aamu-TV`, start label `2024-01-01T06:00:00+02:00`, duration label
`PT1800S`. -/
def fixtureItem : Item :=
  ⟨some "Aamu-TV",
   [⟨some "broadcastStartDate", some "2024-01-01T06:00:00+02:00", none⟩,
    ⟨some "duration", some "PT1800S", none⟩],
   none⟩

/-- A one-item schedule response for the end-to-end scenario. -/
def fixtureSchedule : ScheduleData :=
  ⟨[fixtureItem], some "radio.guide.2024-01-01.radio_opas.yle_radio_1.untitled_list"⟩

/-- A `broadcastStartDate` label whose raw value does not parse. -/
def badStartLabel : Label := ⟨some "broadcastStartDate", some "not-a-date", none⟩

/-- A `broadcastStartDate` label whose raw value parses. -/
def goodStartLabel : Label := ⟨some "broadcastStartDate", some "2024-01-01T06:00:00+02:00", none⟩

/-- An item whose first `broadcastStartDate` label is malformed and whose
second one parses. -/
def itemBadThenGoodStart : Item := ⟨some "Aamu-TV", [badStartLabel, goodStartLabel], none⟩

/-- An item with an empty title. -/
def itemEmptyTitle : Item := ⟨some "", [], none⟩

/-- An item whose only `broadcastStartDate` label is unparseable. -/
def itemUnparseableStart : Item := ⟨some "News", [badStartLabel], none⟩

/-- An item with a parseable start and an explicit zero duration. -/
def itemZeroDuration : Item :=
  ⟨some "News", [goodStartLabel, ⟨some "duration", some "PT0S", none⟩], none⟩

/-- An empty output file tree. -/
def emptyFS : FS := fun _ => none

/-- A previously written output document carrying the configuration blob
hash `confighash`. -/
def witnessDoc : YamlDoc := ⟨⟨"OLD", [], some "confighash"⟩, [("Yle Radio 1", ⟨[]⟩)]⟩

/-- A file tree holding `witnessDoc` at the driver's checked path for
2024-01-01 under directory `out`. -/
def witnessFS : FS :=
  fun p => if p = checkedPath "out" ⟨2024, 1, 1⟩ then some witnessDoc else none

/-- A directory-mode fetch configuration whose blob hash is `confighash`. -/
def witnessConfig : FetchConfig :=
  ⟨⟨fixtureNextData, some "abc123", "confighash"⟩, none, some "out"⟩

/-- A schedule oracle with data available for every date. -/
def htrespAlways : String → HttpOutcome := fun _ => .ok fixtureSchedule

/-- A schedule oracle with data for 2024-01-01 only; any other URL fails,
which `fetch_schedule` turns into a no-data result. -/
def htrespOneDay : String → HttpOutcome := fun url =>
  if url = build_api_url fixtureNextData ⟨2024, 1, 1⟩ then .ok fixtureSchedule
  else .requestError

/-! ## Claim theorems -/

lemma addDays_zero (d : Date) : addDays d 0 = d := rfl

lemma addDays_succ (d : Date) (n : Nat) : addDays d (n + 1) = addDays (nextDay d) n :=
  Function.iterate_succ_apply nextDay n d

lemma convert_to_yaml_isSome (sresp : String → SeriesOutcome) (sd : ScheduleData)
    (bid : Option String) (dh : Option String) (cache : CacheState)
    (gen : String) (git : List (String × String))
    (h : (_extract_service_info sd).isSome) :
    ∃ out, convert_to_yaml sresp sd bid dh cache gen git = some out := by
  unfold convert_to_yaml
  cases hsi : _extract_service_info sd with
  | none => rw [hsi] at h; exact absurd h (by simp)
  | some si => exact ⟨_, rfl⟩

/-- Claim C5: the URL builder is a pure deterministic function of the
configuration blob and the date — equal inputs yield byte-identical URL
strings — and on the literal test fixture (locale `fi`, app id
`test-app-id`, app key `test-app-key`, discovered version `10`, date
2024-01-01) it returns exactly the expected URL string. -/
theorem build_api_url_pure_and_fixture :
    (∀ (nd nd' : NextData) (d d' : Date), nd = nd' → d = d' →
      build_api_url nd d = build_api_url nd' d') ∧
    build_api_url fixtureNextData ⟨2024, 1, 1⟩ = fixtureExpectedUrl := by
  refine ⟨fun nd nd' d d' hnd hd => by rw [hnd, hd], ?_⟩
  decide

/-- Witness for C5: the determinism clause applied at the fixture blob and
date, every hypothesis discharged there. -/
theorem build_api_url_pure_and_fixture_witness :
    build_api_url fixtureNextData ⟨2024, 1, 1⟩ = build_api_url fixtureNextData ⟨2024, 1, 1⟩ :=
  build_api_url_pure_and_fixture.1 fixtureNextData fixtureNextData ⟨2024, 1, 1⟩ ⟨2024, 1, 1⟩ rfl rfl

/-- Claim C6: for every configuration blob and every pair of dates the two
built URLs share the same date-independent core — the path prefix, and the
`language`, `v`, `client`, `app_id` and `app_key` parameters collected in
`blobQuery nd` — and differ only in the date-bearing path segment and the
`yleReferer` parameter value, the only two places the date occurs. -/
theorem build_api_url_only_date_varies (nd : NextData) (d1 d2 : Date) :
    build_api_url nd d1 =
      "https://areena.api.yle.fi/v1/ui/schedules/" ++ "yle-radio-1" ++ "/" ++ d1.isoformat
        ++ ".json" ++ "?" ++ blobQuery nd
        ++ "&" ++ "yleReferer" ++ "=" ++ "radio.guide." ++ d1.isoformat
        ++ ".radio_opas." ++ "yle-radio-1" ++ ".untitled_list" ∧
    build_api_url nd d2 =
      "https://areena.api.yle.fi/v1/ui/schedules/" ++ "yle-radio-1" ++ "/" ++ d2.isoformat
        ++ ".json" ++ "?" ++ blobQuery nd
        ++ "&" ++ "yleReferer" ++ "=" ++ "radio.guide." ++ d2.isoformat
        ++ ".radio_opas." ++ "yle-radio-1" ++ ".untitled_list" :=
  ⟨build_api_url_decomp nd d1, build_api_url_decomp nd d2⟩

/-- Counterexample to claim C3 as stated: at the concrete input where the
HTTP request fails, `fetch_schedule` returns normally with `None` — it does
not signal `TransportError` (the `except` clause catches
`RequestException`), so a request failure is not fatal to the run. -/
theorem fetch_schedule_request_failure_counterexample :
    fetch_schedule HttpOutcome.requestError = Except.ok none ∧
    fetch_schedule HttpOutcome.requestError ≠ Except.error TransportError.mk :=
  ⟨rfl, fun h => Except.noConfusion h⟩

/-- Claim C3 as amended: `fetch_schedule` always returns normally, and it
returns `None` exactly when the HTTP request failed (connection failure,
timeout, or non-2xx status), the body was not valid JSON, or the response
body's data collection is empty or absent; a request failure therefore
merely terminates the multi-day loop like a no-data day instead of aborting
the run. -/
theorem fetch_schedule_amended (o : HttpOutcome) :
    (∃ r, fetch_schedule o = Except.ok r) ∧
    (fetch_schedule o = Except.ok none ↔
      o = HttpOutcome.requestError ∨ o = HttpOutcome.badJson ∨
        ∃ body, o = HttpOutcome.ok body ∧ body.data = []) := by
  cases o with
  | requestError => simp [fetch_schedule]
  | badJson => simp [fetch_schedule]
  | ok body =>
    by_cases h : body.data.isEmpty
    · simp_all [fetch_schedule, List.isEmpty_iff]
    · simp_all [fetch_schedule, List.isEmpty_iff]

/-- Claim C4, evaluated at the failing input (the missing-title case of
`test_get_series_title`): with build id `def456`, series id `1-7654321` and
a response body `{"pageProps": {"view": {}}}`, the first lookup performs one
network call and yields no title; the failure is not cached, so the second
lookup with the same key performs one network call again — not zero, as the
claim and the repository's own test assert. -/
theorem get_series_title_failure_not_cached :
    (get_series_title seriesRespMissingTitle ([] : CacheState) "1-7654321" (some "def456")).1
        = none ∧
    (get_series_title seriesRespMissingTitle ([] : CacheState) "1-7654321" (some "def456")).2.2
        = 1 ∧
    (get_series_title seriesRespMissingTitle
        (get_series_title seriesRespMissingTitle ([] : CacheState) "1-7654321"
          (some "def456")).2.1
        "1-7654321" (some "def456")).2.2 = 1 := by
  decide

/-- Claim C7: the record transformer drops an item (produces no programme
record) when the item lacks a non-empty title or lacks a parseable
`broadcastStartDate` label, and an emitted programme record omits the
`end_time` field when the item's extracted duration is zero — which is the
value the duration scan yields when the `duration` label is absent or its
raw value is not parseable as `PT<integer>S`. -/
theorem convert_drops_and_omits_end_time (resp : String → SeriesOutcome)
    (build_id : Option String) (st : CacheState) (item : Item) :
    (item.title.getD "" = "" → (convertItem resp build_id st item).1 = none) ∧
    (extractStartTime item.labels = none → (convertItem resp build_id st item).1 = none) ∧
    (∀ p, (convertItem resp build_id st item).1 = some p →
      extractDurationSeconds item.labels = 0 → p.end_time = none) := by
  refine ⟨fun h => by simp [convertItem, h], fun h => ?_, fun p hp hdur => ?_⟩
  · unfold convertItem
    split
    · rfl
    · simp [_extract_time_info, h]
  · unfold convertItem at hp
    split at hp
    · exact absurd hp (by simp)
    · simp only [_extract_time_info] at hp
      rw [hdur] at hp
      split at hp
      · exact absurd hp (by simp)
      · simp only [Option.some.injEq] at hp
        subst hp
        simp
        split <;> rfl

/-- Witness for C7: the theorem applied at three concrete items — an empty
title, an unparseable start label, and a zero duration — with every
hypothesis discharged there. -/
theorem convert_drops_and_omits_end_time_witness :
    (convertItem respNoSeries none ([] : CacheState) itemEmptyTitle).1 = none ∧
    (convertItem respNoSeries none ([] : CacheState) itemUnparseableStart).1 = none ∧
    ({ title := "News", start_time := "2024-01-01T06:00:00+02:00", end_time := none,
       description := none, series := none : Programme}).end_time = none :=
  ⟨(convert_drops_and_omits_end_time respNoSeries none [] itemEmptyTitle).1 (by decide),
   (convert_drops_and_omits_end_time respNoSeries none [] itemUnparseableStart).2.1 (by decide),
   (convert_drops_and_omits_end_time respNoSeries none [] itemZeroDuration).2.2 _ (by decide)
     (by decide)⟩

/-- Claim C8: on the end-to-end fixture — build id `abc123`, one item with
title `Aamu-TV`, start label `2024-01-01T06:00:00+02:00` and duration label
`PT1800S` — the transformer produces exactly one programme record with
`start_time` 2024-01-01T06:00:00+02:00 and `end_time`
2024-01-01T06:30:00+02:00; and in general, whenever the extracted duration
is positive, the end time is the start time advanced by that many
seconds. -/
theorem convert_end_time_fixture_and_general :
    (convert_to_yaml respNoSeries fixtureSchedule (some "abc123") (some "confighash")
        ([] : CacheState) "GEN" [] =
      some ({ metadata := ⟨"GEN", [], some "confighash"⟩
              data := [("Yle Radio 1",
                ⟨[{ title := "Aamu-TV", start_time := "2024-01-01T06:00:00+02:00",
                    end_time := some "2024-01-01T06:30:00+02:00",
                    description := none, series := none }]⟩)] },
            ([] : CacheState))) ∧
    (∀ (item : Item) (start : DateTime), extractStartTime item.labels = some start →
      0 < extractDurationSeconds item.labels →
      (_extract_time_info item).2 =
        some (start.addSeconds (extractDurationSeconds item.labels).toNat)) := by
  constructor
  · decide
  · intro item start h hd
    simp [_extract_time_info, h, hd]

/-- Witness for C8: the general end-time clause applied at the fixture item,
both hypotheses discharged there. -/
theorem convert_end_time_fixture_and_general_witness :
    (_extract_time_info fixtureItem).2 =
      some ((⟨2024, 1, 1, 6, 0, 0, some 120⟩ : DateTime).addSeconds
        (extractDurationSeconds fixtureItem.labels).toNat) :=
  convert_end_time_fixture_and_general.2 fixtureItem ⟨2024, 1, 1, 6, 0, 0, some 120⟩
    (by decide) (by decide)

/-- Claim C10: the start-time scan uses the first `broadcastStartDate` label
whose raw value parses, not the first label of that type — a malformed label
of that type is passed over, so the scan continues to a later parseable
label and the item is not dropped (shown concretely for an item whose first
start label is malformed and whose second parses). -/
theorem start_time_skips_unparseable_labels (label : Label) (rest : List Label)
    (htype : label.type.getD "" = "broadcastStartDate")
    (hbad : fromisoformat (label.raw.getD "") = none) :
    extractStartTime (label :: rest) = extractStartTime rest ∧
    (convertItem respNoSeries none ([] : CacheState) itemBadThenGoodStart).1 =
      some { title := "Aamu-TV", start_time := "2024-01-01T06:00:00+02:00",
             end_time := none, description := none, series := none } := by
  constructor
  · simp [extractStartTime, htype, hbad]
  · decide

/-- Witness for C10: the theorem applied at the concrete malformed label
followed by the parseable one, both hypotheses discharged there. -/
theorem start_time_skips_unparseable_labels_witness :
    extractStartTime [badStartLabel, goodStartLabel] = extractStartTime [goodStartLabel] ∧
    (convertItem respNoSeries none ([] : CacheState) itemBadThenGoodStart).1 =
      some { title := "Aamu-TV", start_time := "2024-01-01T06:00:00+02:00",
             end_time := none, description := none, series := none } :=
  start_time_skips_unparseable_labels badStartLabel [goodStartLabel] (by decide) (by decide)

/-- Claim C1: in directory mode, when the driver finds an existing output
file at the checked path for the current date whose stored
`metadata.data_hash` equals the content hash of this run's configuration
blob, it advances to the next day without writing: the iteration continues
on the unchanged file tree (the same `fs`) and on the unchanged cache, and
the day is recorded as skipped. -/
theorem fetch_skip_advances_without_writing (htresp : String → HttpOutcome)
    (sresp : String → SeriesOutcome) (config : FetchConfig) (generated_at : String)
    (gitInfo : List (String × String)) (fuel : Nat) (fs : FS) (cache : CacheState)
    (d : Date) (doc : YamlDoc)
    (hfetch : ∃ sd, fetch_schedule (htresp (build_api_url config.areena_data.next_data d))
      = Except.ok (some sd))
    (hdir : truthyStr config.directory = true)
    (hfile : fs (checkedPath (config.directory.getD "") d) = some doc)
    (hhash : doc.metadata.data_hash = some config.areena_data.data_hash) :
    fetch_multiple_days htresp sresp config generated_at gitInfo (fuel + 1) fs cache d =
      { fs := (fetch_multiple_days htresp sresp config generated_at gitInfo fuel fs cache
          (nextDay d)).fs
        cache := (fetch_multiple_days htresp sresp config generated_at gitInfo fuel fs cache
          (nextDay d)).cache
        processed := (d, false) :: (fetch_multiple_days htresp sresp config generated_at gitInfo
          fuel fs cache (nextDay d)).processed
        ending := (fetch_multiple_days htresp sresp config generated_at gitInfo fuel fs cache
          (nextDay d)).ending } := by
  obtain ⟨sd, hsd⟩ := hfetch
  have hskip : hashSkip config fs d = true := by
    simp [hashSkip, hdir, hfile, hhash]
  conv_lhs => unfold fetch_multiple_days
  simp only [hsd, hskip, if_true]

/-- Witness for C1: the theorem applied at a concrete directory-mode
configuration, a file tree holding a document with the matching hash, and a
schedule oracle with data, every hypothesis discharged there. -/
theorem fetch_skip_advances_without_writing_witness :
    fetch_multiple_days htrespAlways respNoSeries witnessConfig "GEN" [] 1 witnessFS
        ([] : CacheState) ⟨2024, 1, 1⟩ =
      { fs := (fetch_multiple_days htrespAlways respNoSeries witnessConfig "GEN" [] 0 witnessFS
          ([] : CacheState) (nextDay ⟨2024, 1, 1⟩)).fs
        cache := (fetch_multiple_days htrespAlways respNoSeries witnessConfig "GEN" [] 0 witnessFS
          ([] : CacheState) (nextDay ⟨2024, 1, 1⟩)).cache
        processed := (⟨2024, 1, 1⟩, false) :: (fetch_multiple_days htrespAlways respNoSeries
          witnessConfig "GEN" [] 0 witnessFS ([] : CacheState) (nextDay ⟨2024, 1, 1⟩)).processed
        ending := (fetch_multiple_days htrespAlways respNoSeries witnessConfig "GEN" [] 0 witnessFS
          ([] : CacheState) (nextDay ⟨2024, 1, 1⟩)).ending } :=
  fetch_skip_advances_without_writing htrespAlways respNoSeries witnessConfig "GEN" [] 0 witnessFS
    [] ⟨2024, 1, 1⟩ witnessDoc ⟨fixtureSchedule, rfl⟩ (by decide) (by decide) (by decide)

/-- Claim C2: the driver iterates over consecutive dates from the start
date, one day per iteration; given that the schedule fetch yields data on
every day before day `n` and no data on day `n` (and enough fuel for the
embedding), the loop ends in the normal `stopped` state exactly at day `n`,
having processed (written or skipped) precisely the days `0, …, n-1` in
order.  The service-info side condition rules out the unrelated crash on a
malformed referer, so the no-data fetch result is the sole terminator. -/
theorem fetch_multiple_days_stops_at_first_no_data (htresp : String → HttpOutcome)
    (sresp : String → SeriesOutcome) (config : FetchConfig) (generated_at : String)
    (gitInfo : List (String × String)) (n : Nat) :
    ∀ (d0 : Date) (fuel : Nat) (fs : FS) (cache : CacheState),
    n < fuel →
    fetch_schedule (htresp (build_api_url config.areena_data.next_data (addDays d0 n)))
      = Except.ok none →
    (∀ k, k < n → ∃ sd,
      fetch_schedule (htresp (build_api_url config.areena_data.next_data (addDays d0 k)))
        = Except.ok (some sd) ∧ (_extract_service_info sd).isSome) →
    (fetch_multiple_days htresp sresp config generated_at gitInfo fuel fs cache d0).ending
        = LoopEnd.stopped (addDays d0 n) ∧
    (fetch_multiple_days htresp sresp config generated_at gitInfo fuel fs cache d0).processed.map
        Prod.fst = (List.range n).map (addDays d0) := by
  induction n with
  | zero =>
    intro d0 fuel fs cache hfuel hnone hsome
    cases fuel with
    | zero => exact absurd hfuel (by omega)
    | succ f =>
      rw [addDays_zero] at hnone
      have hstep : fetch_multiple_days htresp sresp config generated_at gitInfo (f + 1) fs cache d0
          = ⟨fs, cache, [], .stopped d0⟩ := by
        conv_lhs => unfold fetch_multiple_days
        simp only [hnone]
      rw [hstep]
      exact ⟨rfl, rfl⟩
  | succ n ih =>
    intro d0 fuel fs cache hfuel hnone hsome
    cases fuel with
    | zero => exact absurd hfuel (by omega)
    | succ f =>
      obtain ⟨sd, hsd, hsi⟩ := hsome 0 (by omega)
      rw [show addDays d0 0 = d0 from rfl] at hsd
      have hfuel' : n < f := by omega
      rw [addDays_succ] at hnone
      have hsome' : ∀ k, k < n → ∃ sd,
          fetch_schedule (htresp (build_api_url config.areena_data.next_data
            (addDays (nextDay d0) k))) = Except.ok (some sd) ∧
          (_extract_service_info sd).isSome := by
        intro k hk
        have h := hsome (k + 1) (by omega)
        rw [addDays_succ] at h
        exact h
      have hmap : (List.range (n + 1)).map (addDays d0)
          = d0 :: (List.range n).map (addDays (nextDay d0)) := by
        rw [List.range_succ_eq_map, List.map_cons, List.map_map]
        refine congrArg₂ _ rfl (List.map_congr_left fun k _ => ?_)
        exact addDays_succ d0 k
      by_cases hskip : hashSkip config fs d0 = true
      · have hstep : fetch_multiple_days htresp sresp config generated_at gitInfo (f + 1) fs cache
            d0 =
            { fs := (fetch_multiple_days htresp sresp config generated_at gitInfo f fs cache
                (nextDay d0)).fs
              cache := (fetch_multiple_days htresp sresp config generated_at gitInfo f fs cache
                (nextDay d0)).cache
              processed := (d0, false) :: (fetch_multiple_days htresp sresp config generated_at
                gitInfo f fs cache (nextDay d0)).processed
              ending := (fetch_multiple_days htresp sresp config generated_at gitInfo f fs cache
                (nextDay d0)).ending } := by
          conv_lhs => unfold fetch_multiple_days
          simp only [hsd, hskip, if_true]
        obtain ⟨ihend, ihproc⟩ := ih (nextDay d0) f fs cache hfuel' hnone hsome'
        rw [hstep]
        refine ⟨ihend, ?_⟩
        rw [hmap]
        simp only [List.map_cons]
        exact congrArg₂ _ rfl ihproc
      · rw [Bool.not_eq_true] at hskip
        obtain ⟨out, hconv⟩ := convert_to_yaml_isSome sresp sd config.areena_data.build_id
          (some config.areena_data.data_hash) cache generated_at gitInfo hsi
        have hstep : fetch_multiple_days htresp sresp config generated_at gitInfo (f + 1) fs cache
            d0 =
            { fs := (fetch_multiple_days htresp sresp config generated_at gitInfo f
                (write_yaml out.1 config.output config.directory d0 fs) out.2 (nextDay d0)).fs
              cache := (fetch_multiple_days htresp sresp config generated_at gitInfo f
                (write_yaml out.1 config.output config.directory d0 fs) out.2 (nextDay d0)).cache
              processed := (d0, true) :: (fetch_multiple_days htresp sresp config generated_at
                gitInfo f (write_yaml out.1 config.output config.directory d0 fs) out.2
                (nextDay d0)).processed
              ending := (fetch_multiple_days htresp sresp config generated_at gitInfo f
                (write_yaml out.1 config.output config.directory d0 fs) out.2
                (nextDay d0)).ending } := by
          conv_lhs => unfold fetch_multiple_days
          simp only [hsd, hskip, Bool.false_eq_true, if_false, hconv]
        obtain ⟨ihend, ihproc⟩ := ih (nextDay d0) f
          (write_yaml out.1 config.output config.directory d0 fs) out.2 hfuel' hnone hsome'
        rw [hstep]
        refine ⟨ihend, ?_⟩
        rw [hmap]
        simp only [List.map_cons]
        exact congrArg₂ _ rfl ihproc

/-- Witness for C2: the theorem applied with a two-day fuel budget and an
oracle that has data for 2024-01-01 only, every hypothesis discharged
there: the loop stops exactly at 2024-01-02 having processed 2024-01-01. -/
theorem fetch_multiple_days_stops_at_first_no_data_witness :
    (fetch_multiple_days htrespOneDay respNoSeries witnessConfig "GEN" [] 2 emptyFS
        ([] : CacheState) ⟨2024, 1, 1⟩).ending
      = LoopEnd.stopped (addDays ⟨2024, 1, 1⟩ 1) ∧
    (fetch_multiple_days htrespOneDay respNoSeries witnessConfig "GEN" [] 2 emptyFS
        ([] : CacheState) ⟨2024, 1, 1⟩).processed.map Prod.fst
      = (List.range 1).map (addDays ⟨2024, 1, 1⟩) :=
  fetch_multiple_days_stops_at_first_no_data htrespOneDay respNoSeries witnessConfig "GEN" [] 1
    ⟨2024, 1, 1⟩ 2 emptyFS [] (by omega) (by decide)
    (fun k hk => by
      have hk0 : k = 0 := by omega
      subst hk0
      exact ⟨fixtureSchedule, by decide, by decide⟩)

lemma asciiLower_asciiUpper (c : Char) : asciiLower (asciiUpper c) = asciiLower c := by
  unfold asciiUpper; split <;> rfl

lemma asciiUpper_asciiLower (c : Char) : asciiUpper (asciiLower c) = asciiUpper c := by
  unfold asciiLower; split <;> rfl

lemma asciiLower_asciiLower (c : Char) : asciiLower (asciiLower c) = asciiLower c := by
  calc asciiLower (asciiLower c)
      = asciiLower (asciiUpper (asciiLower c)) := (asciiLower_asciiUpper (asciiLower c)).symm
    _ = asciiLower (asciiUpper c) := by rw [asciiUpper_asciiLower]
    _ = asciiLower c := asciiLower_asciiUpper c

lemma isAsciiAlpha_asciiLower (c : Char) : isAsciiAlpha (asciiLower c) = isAsciiAlpha c := by
  unfold asciiLower; split <;> rfl

lemma asciiLower_eq_nonalpha (c t : Char) (ht : isAsciiAlpha t = false)
    (h : asciiLower c = t) : c = t := by
  unfold asciiLower at h
  split at h
  all_goals first
    | exact h
    | (subst h; simp [isAsciiAlpha] at ht)

lemma upper_pos (c t : Char) (ht : t ≠ '-')
    (h : (if asciiLower (asciiUpper c) = ' ' then '-' else asciiLower (asciiUpper c)) = t) :
    asciiLower c = t ∧ asciiUpper c = asciiUpper t ∧ isAsciiAlpha c = isAsciiAlpha t := by
  rw [asciiLower_asciiUpper] at h
  have hx : asciiLower c = t := by
    by_cases hsp : asciiLower c = ' '
    · rw [if_pos hsp] at h; exact absurd h.symm ht
    · rwa [if_neg hsp] at h
  refine ⟨hx, ?_, ?_⟩
  · rw [← asciiUpper_asciiLower c, hx]
  · rw [← isAsciiAlpha_asciiLower c, hx]

lemma lower_pos (c t : Char) (ht : t ≠ '-')
    (h : (if asciiLower (asciiLower c) = ' ' then '-' else asciiLower (asciiLower c)) = t) :
    asciiLower c = t ∧ isAsciiAlpha c = isAsciiAlpha t := by
  rw [asciiLower_asciiLower] at h
  have hx : asciiLower c = t := by
    by_cases hsp : asciiLower c = ' '
    · rw [if_pos hsp] at h; exact absurd h.symm ht
    · rwa [if_neg hsp] at h
  refine ⟨hx, ?_⟩
  rw [← isAsciiAlpha_asciiLower c, hx]

lemma space_pos (c : Char) (hnd : c ≠ '-')
    (h : (if asciiLower (asciiLower c) = ' ' then '-' else asciiLower (asciiLower c)) = '-') :
    asciiLower c = ' ' ∧ isAsciiAlpha c = false := by
  rw [asciiLower_asciiLower] at h
  by_cases hsp : asciiLower c = ' '
  · refine ⟨hsp, ?_⟩
    rw [← isAsciiAlpha_asciiLower c, hsp]
    rfl
  · rw [if_neg hsp] at h
    exact absurd (asciiLower_eq_nonalpha c '-' (by rfl) h) hnd


lemma pyTitleGo_length (l : List Char) : ∀ p : Bool, (pyTitleGo p l).length = l.length := by
  induction l with
  | nil => intro p; rfl
  | cons c rest ih => intro p; simp [pyTitleGo, ih]

lemma pyTitle_lower_to_id (l : List Char) (hnd : ('-' : Char) ∉ l)
    (h : List.map (fun c => if c = ' ' then '-' else c)
        (List.map asciiLower (pyTitleGo false l)) = "yle-radio-1".data) :
    pyTitleGo false l = "Yle Radio 1".data := by
  have htgt : "yle-radio-1".data = ['y', 'l', 'e', '-', 'r', 'a', 'd', 'i', 'o', '-', '1'] := rfl
  have hout : "Yle Radio 1".data = ['Y', 'l', 'e', ' ', 'R', 'a', 'd', 'i', 'o', ' ', '1'] := rfl
  rw [htgt] at h
  rw [hout]
  have hlen : l.length = 11 := by
    have hl := congrArg List.length h
    simpa [pyTitleGo_length] using hl
  rcases l with _ | ⟨c0, l⟩
  · simp at hlen
  rcases l with _ | ⟨c1, l⟩
  · simp at hlen
  rcases l with _ | ⟨c2, l⟩
  · simp at hlen
  rcases l with _ | ⟨c3, l⟩
  · simp at hlen
  rcases l with _ | ⟨c4, l⟩
  · simp at hlen
  rcases l with _ | ⟨c5, l⟩
  · simp at hlen
  rcases l with _ | ⟨c6, l⟩
  · simp at hlen
  rcases l with _ | ⟨c7, l⟩
  · simp at hlen
  rcases l with _ | ⟨c8, l⟩
  · simp at hlen
  rcases l with _ | ⟨c9, l⟩
  · simp at hlen
  rcases l with _ | ⟨c10, l⟩
  · simp at hlen
  rcases l with _ | ⟨c11, l⟩
  case cons => simp at hlen
  simp only [pyTitleGo, List.map_cons, List.map_nil, List.cons.injEq, Bool.false_eq_true,
    if_false, and_true] at h
  simp only [List.mem_cons, not_or] at hnd
  obtain ⟨-, -, -, hnd3, -, -, -, -, -, hnd9, -⟩ := hnd
  obtain ⟨h0, h1, h2, h3, h4, h5, h6, h7, h8, h9, h10⟩ := h
  obtain ⟨hl0, hu0, ha0⟩ := upper_pos c0 'y' (by decide) h0
  have ha0t : isAsciiAlpha c0 = true := ha0.trans (by decide)
  simp only [ha0t, eq_self_iff_true, if_true] at h1
  obtain ⟨hl1, ha1⟩ := lower_pos c1 'l' (by decide) h1
  have ha1t : isAsciiAlpha c1 = true := ha1.trans (by decide)
  simp only [ha1t, eq_self_iff_true, if_true] at h2
  obtain ⟨hl2, ha2⟩ := lower_pos c2 'e' (by decide) h2
  have ha2t : isAsciiAlpha c2 = true := ha2.trans (by decide)
  simp only [ha2t, eq_self_iff_true, if_true] at h3
  obtain ⟨hs3, ha3⟩ := space_pos c3 (Ne.symm hnd3) h3
  simp only [ha3, Bool.false_eq_true, if_false] at h4
  obtain ⟨hl4, hu4, ha4⟩ := upper_pos c4 'r' (by decide) h4
  have ha4t : isAsciiAlpha c4 = true := ha4.trans (by decide)
  simp only [ha4t, eq_self_iff_true, if_true] at h5
  obtain ⟨hl5, ha5⟩ := lower_pos c5 'a' (by decide) h5
  have ha5t : isAsciiAlpha c5 = true := ha5.trans (by decide)
  simp only [ha5t, eq_self_iff_true, if_true] at h6
  obtain ⟨hl6, ha6⟩ := lower_pos c6 'd' (by decide) h6
  have ha6t : isAsciiAlpha c6 = true := ha6.trans (by decide)
  simp only [ha6t, eq_self_iff_true, if_true] at h7
  obtain ⟨hl7, ha7⟩ := lower_pos c7 'i' (by decide) h7
  have ha7t : isAsciiAlpha c7 = true := ha7.trans (by decide)
  simp only [ha7t, eq_self_iff_true, if_true] at h8
  obtain ⟨hl8, ha8⟩ := lower_pos c8 'o' (by decide) h8
  have ha8t : isAsciiAlpha c8 = true := ha8.trans (by decide)
  simp only [ha8t, eq_self_iff_true, if_true] at h9
  obtain ⟨hs9, ha9⟩ := space_pos c9 (Ne.symm hnd9) h9
  simp only [ha9, Bool.false_eq_true, if_false] at h10
  obtain ⟨hl10, hu10, ha10⟩ := upper_pos c10 '1' (by decide) h10
  have e0 : asciiUpper c0 = 'Y' := hu0.trans (by decide)
  have e4 : asciiUpper c4 = 'R' := hu4.trans (by decide)
  have e10 : asciiUpper c10 = '1' := hu10.trans (by decide)
  simp only [pyTitleGo, Bool.false_eq_true, if_false, ha0t, ha1t, ha2t, ha3, ha4t, ha5t, ha6t,
    ha7t, ha8t, ha9, eq_self_iff_true, if_true, e0, hl1, hl2, hs3, e4, hl5, hl6, hl7, hl8, hs9,
    e10, List.cons.injEq, and_self]


lemma replaceChar_dash_space_no_dash (s : String) :
    ('-' : Char) ∉ (replaceChar '-' ' ' s).data := by
  intro hmem
  simp only [replaceChar, List.mem_map] at hmem
  obtain ⟨c, -, hc⟩ := hmem
  by_cases h : c = '-'
  · rw [if_pos h] at hc
    exact absurd hc (by decide)
  · rw [if_neg h] at hc
    exact h hc

lemma pyTitle_service_id_eq (s : String) (hnd : ('-' : Char) ∉ s.data)
    (h : serviceIdOfName (pyTitle s) = "yle-radio-1") : pyTitle s = "Yle Radio 1" := by
  have hdata : List.map (fun c => if c = ' ' then '-' else c)
      (List.map asciiLower (pyTitleGo false s.data)) = "yle-radio-1".data :=
    congrArg String.data h
  exact String.ext (pyTitle_lower_to_id s.data hnd hdata)

/-- Claim C9: the driver's hash-skip check always consults the path built
from the hardcoded service id `yle-radio-1` (`checkedPath`), whereas the
output writer derives the written path from the service name found in the
schedule data (first conjunct); the two paths coincide exactly when that
service name resolves to `Yle Radio 1` (second conjunct) — for any other
service the skip check inspects a path the writer never writes, so the
hash-based no-op never triggers. -/
theorem skip_checks_hardcoded_service_path (directory : String) (d : Date)
    (output : Option String) (sd : ScheduleData) (service_id service_name : String)
    (hsi : _extract_service_info sd = some (service_id, service_name)) :
    (∀ (metadata : Metadata) (sdata : ServiceData) (fs : FS), directory ≠ "" →
      write_yaml ⟨metadata, [(service_name, sdata)]⟩ output (some directory) d fs
        = fsSet fs (servicePath directory (serviceIdOfName service_name) d)
            ⟨metadata, [(service_name, sdata)]⟩) ∧
    (checkedPath directory d = servicePath directory (serviceIdOfName service_name) d
      ↔ service_name = "Yle Radio 1") := by
  constructor
  · intro metadata sdata fs hdir
    simp [write_yaml, truthyStr, hdir]
  · unfold _extract_service_info at hsi
    dsimp only [] at hsi
    split at hsi
    · simp only [Option.some.injEq, Prod.mk.injEq] at hsi
      obtain ⟨-, hname⟩ := hsi
      by_cases hid : replaceChar '_' '-'
          ((pySplit (sd.yleReferer.getD "") '.').get
            ⟨(pySplit (sd.yleReferer.getD "") '.').length - 2, by omega⟩) = "yle-radio-1"
      · rw [if_pos hid] at hname
        subst hname
        constructor
        · intro _; rfl
        · intro _
          simp [checkedPath, servicePath]
          decide
      · rw [if_neg hid] at hname
        subst hname
        constructor
        · intro hpath
          simp only [checkedPath, servicePath, List.cons.injEq, and_true, true_and] at hpath
          exact pyTitle_service_id_eq _ (replaceChar_dash_space_no_dash _) hpath.symm
        · intro hname
          rw [hname]
          simp [checkedPath, servicePath]
          decide
    · exact absurd hsi (by simp)

/-- Witness for C9: the theorem applied at the fixture schedule (whose
service resolves to `Yle Radio 1`), directory `out` and date 2024-01-01,
every hypothesis discharged there. -/
theorem skip_checks_hardcoded_service_path_witness :
    (write_yaml ⟨⟨"GEN", [], some "confighash"⟩, [("Yle Radio 1", ⟨[]⟩)]⟩ none (some "out")
        ⟨2024, 1, 1⟩ emptyFS
      = fsSet emptyFS (servicePath "out" (serviceIdOfName "Yle Radio 1") ⟨2024, 1, 1⟩)
          ⟨⟨"GEN", [], some "confighash"⟩, [("Yle Radio 1", ⟨[]⟩)]⟩) ∧
    (checkedPath "out" ⟨2024, 1, 1⟩ = servicePath "out" (serviceIdOfName "Yle Radio 1") ⟨2024, 1, 1⟩
      ↔ "Yle Radio 1" = "Yle Radio 1") :=
  ⟨(skip_checks_hardcoded_service_path "out" ⟨2024, 1, 1⟩ none fixtureSchedule "yle-radio-1"
      "Yle Radio 1" (by decide)).1 ⟨"GEN", [], some "confighash"⟩ ⟨[]⟩ emptyFS (by decide),
   (skip_checks_hardcoded_service_path "out" ⟨2024, 1, 1⟩ none fixtureSchedule "yle-radio-1"
      "Yle Radio 1" (by decide)).2⟩

end YleGuide
